import Mathlib

/-!
Verification development for the loanledger repository.

All code is shallowly embedded from the JavaScript sources:
  * `src/utils/dateHelpers.js`   — dates are modelled as integers (days since an
    epoch); `now` is threaded explicitly instead of reading the ambient clock.
  * `src/utils/calculations.js`  — JS numbers are modelled as exact rationals;
    the one place where IEEE special values (Infinity / NaN) are observable,
    `calculateMonthlyPayment`, uses an explicit `JsNum` sum type.
  * `src/utils/loanHelpers.js`
  * `src/utils/dataManagement.js`
  * `src/store/useLoanStore.js`  — the alert generation / merge logic.
  * `src/utils/fileImport.js`    — CSV row processing and append-only import.
-/

namespace LoanLedger

/-! ## Data model (src/types, src/utils) -/

/-- Payment status: 'pending' | 'paid' | 'overdue' | 'partial'
    (the last one is named `partly` here). -/
inductive PayStatus where
  | pending
  | paid
  | overdue
  | partly
deriving DecidableEq

/-- Loan status enum. -/
inductive Status where
  | on_track
  | at_risk
  | overdue
  | paid_off
  | defaulted
deriving DecidableEq

structure Payment where
  id : String
  dueDate : ℤ
  amount : ℚ
  status : PayStatus
  paidDate : Option ℤ
  principalAmount : ℚ
  interestAmount : ℚ
  notes : String
deriving DecidableEq

structure Obligation where
  id : String
  title : String
  dueDate : ℤ
  completed : Bool
deriving DecidableEq

structure Loan where
  id : String
  borrower : String
  borrowerEmail : String
  borrowerPhone : String
  borrowerContact : String
  borrowerIdentifier : String
  loanOfficer : String
  amount : ℚ
  interestRate : ℚ
  term : ℕ
  startDate : ℤ
  endDate : Option ℤ
  status : Status
  riskScore : ℚ
  paymentSchedule : List Payment
  obligations : List Obligation
  notes : List String
  communications : List String
  tags : List String
  managedBy : String
deriving DecidableEq

/-- JS `s.toLowerCase().trim()`; the empty string stands for both `''` and
    `undefined` (both are falsy).  Implemented over the character list so it
    evaluates by structural recursion. -/
def lowerTrim (s : String) : String :=
  String.mk ((((s.data.map Char.toLower).dropWhile Char.isWhitespace).reverse.dropWhile
    Char.isWhitespace).reverse)

/-! ## dateHelpers.js (dates as integer day numbers) -/

/-- `isDatePast`: date-fns `isPast` is a strict comparison with now. -/
def isDatePastB (d now : ℤ) : Bool := decide (d < now)

/-- `daysUntil(dateString)`: `differenceInDays(parseISO(dateString), new Date())`. -/
def daysUntilI (d now : ℤ) : ℤ := d - now

/-- `isWithinDays(dateString, days)`: `daysDiff !== null && daysDiff >= 0 && daysDiff <= days`. -/
def isWithinDaysB (d : ℤ) (days : ℤ) (now : ℤ) : Bool :=
  decide (0 ≤ daysUntilI d now) && decide (daysUntilI d now ≤ days)

/-! ## calculations.js : calculateMonthlyPayment

JS arithmetic is exact on the rationals we care about except where a division
by zero occurs, so we track the IEEE special values explicitly just for this
function. -/

inductive JsNum where
  | num (q : ℚ)
  | posInf
  | negInf
  | nan
deriving DecidableEq

/-- JS division `a / n` where `n` is the (integer) month count. -/
def jsDivNat (a : ℚ) (n : ℕ) : JsNum :=
  if n = 0 then
    (if 0 < a then JsNum.posInf else if a < 0 then JsNum.negInf else JsNum.nan)
  else JsNum.num (a / n)

/-- JS `x || 0`: `NaN` and `0` are falsy (and `0 || 0` is `0`), infinities are truthy. -/
def jsOrZero : JsNum → JsNum
  | JsNum.nan => JsNum.num 0
  | x => x

/-- Collapse to a rational when the value is finite (used where the source
    carries the float into further arithmetic). -/
def JsNum.toQ : JsNum → ℚ
  | JsNum.num q => q
  | _ => 0

/-- `calculateMonthlyPayment(principal, annualRate, termMonths)`:
```js
if (termMonths === 0 || annualRate === 0) {
  return principal / termMonths || 0;
}
const monthlyRate = annualRate / 100 / 12;
const numerator = principal * monthlyRate * Math.pow(1 + monthlyRate, termMonths);
const denominator = Math.pow(1 + monthlyRate, termMonths) - 1;
return numerator / denominator;
``` -/
def calculateMonthlyPayment (principal annualRate : ℚ) (termMonths : ℕ) : JsNum :=
  if termMonths = 0 ∨ annualRate = 0 then
    jsOrZero (jsDivNat principal termMonths)
  else
    let monthlyRate := annualRate / 100 / 12
    JsNum.num (principal * monthlyRate * (1 + monthlyRate) ^ termMonths /
      ((1 + monthlyRate) ^ termMonths - 1))

/-! ## calculations.js : calculateRiskScore

The sequential `riskScore += …` accumulation is written as a sum of the four
named terms; the addends are exactly the code's. -/

/-- Payment history term (the code guards with `totalPayments > 0`). -/
def paymentHistoryTerm (sched : List Payment) : ℚ :=
  if sched.length = 0 then 0
  else ((sched.filter fun p => decide (p.status = PayStatus.overdue)).length : ℚ) /
    (sched.length : ℚ) * 30

/-- Obligation compliance term. -/
def obligationTerm (now : ℤ) (obls : List Obligation) : ℚ :=
  if obls.length = 0 then 0
  else ((obls.filter fun o => !o.completed && isDatePastB o.dueDate now).length : ℚ) /
    (obls.length : ℚ) * 20

/-- Time-to-maturity term:
```js
const daysUntilMaturity = daysUntil(loan.endDate);
if (daysUntilMaturity !== null && daysUntilMaturity < 90) {
  riskScore += (90 - daysUntilMaturity) / 90 * 20;
}
``` -/
def maturityTerm (now : ℤ) (endDate : Option ℤ) : ℚ :=
  match endDate with
  | none => 0
  | some e => if daysUntilI e now < 90 then ((90 - daysUntilI e now : ℤ) : ℚ) / 90 * 20 else 0

/-- `statusRisk[loan.status] || 0` (all stored statuses are in the enum). -/
def statusRisk : Status → ℚ
  | Status.on_track => 0
  | Status.at_risk => 15
  | Status.overdue => 25
  | Status.defaulted => 30
  | Status.paid_off => -20

/-- `calculateRiskScore(loan)`: base 50 plus the four terms, clamped to [0,100]. -/
def calculateRiskScore (now : ℤ) (loan : Loan) : ℚ :=
  min 100 (max 0 (50 + paymentHistoryTerm loan.paymentSchedule
    + obligationTerm now loan.obligations
    + maturityTerm now loan.endDate
    + statusRisk loan.status))

/-! ## loanHelpers.js : determineLoanStatus -/

/-- `determineLoanStatus(loan)`, with `now` threaded for the date helpers. -/
def determineLoanStatus (now : ℤ) (loan : Loan) : Status :=
  let overduePayments :=
    (loan.paymentSchedule.filter fun p => decide (p.status = PayStatus.overdue)).length
  if 3 ≤ overduePayments then Status.defaulted
  else if loan.paymentSchedule.all (fun p => decide (p.status = PayStatus.paid)) then
    Status.paid_off
  else if loan.paymentSchedule.any (fun p => decide (p.status = PayStatus.overdue)) then
    Status.overdue
  else
    let upcomingPayments := loan.paymentSchedule.filter fun p =>
      decide (p.status = PayStatus.pending) && isWithinDaysB p.dueDate 7 now
    let incompleteObligations := loan.obligations.filter fun o =>
      !o.completed && isDatePastB o.dueDate now
    if 0 < upcomingPayments.length ∨ 0 < incompleteObligations.length then Status.at_risk
    else Status.on_track

/-- `enrichLoan(loan)`. -/
def enrichLoan (now : ℤ) (loan : Loan) : Loan :=
  let status := determineLoanStatus now loan
  let riskScore := calculateRiskScore now { loan with status := status }
  { loan with status := status, riskScore := riskScore }

/-! ## Calendar arithmetic for schedule due dates

The JS code manipulates `Date` objects; we model a date as its day number and
convert to/from the proleptic Gregorian civil date (year, month 1-12, day)
with the standard civil-calendar algorithms. -/

def isLeapYear (y : ℤ) : Bool :=
  decide (y % 4 = 0) && (decide (y % 100 ≠ 0) || decide (y % 400 = 0))

def daysInMonth (y : ℤ) (m : ℕ) : ℕ :=
  if m = 2 then (if isLeapYear y then 29 else 28)
  else if m = 4 ∨ m = 6 ∨ m = 9 ∨ m = 11 then 30
  else 31

/-- Day number of a civil date (month is 1-12). -/
def daysFromCivil (y : ℤ) (m d : ℕ) : ℤ :=
  let yAdj : ℤ := if m ≤ 2 then y - 1 else y
  let era : ℤ := (if 0 ≤ yAdj then yAdj else yAdj - 399) / 400
  let yoe : ℤ := yAdj - era * 400
  let mp : ℤ := (m : ℤ) + (if 2 < m then -3 else 9)
  let doy : ℤ := (153 * mp + 2) / 5 + (d : ℤ) - 1
  let doe : ℤ := yoe * 365 + yoe / 4 - yoe / 100 + doy
  era * 146097 + doe - 719468

/-- Civil date (year, month 1-12, day) of a day number. -/
def civilFromDays (z0 : ℤ) : ℤ × ℕ × ℕ :=
  let z := z0 + 719468
  let era : ℤ := (if 0 ≤ z then z else z - 146096) / 146097
  let doe : ℕ := (z - era * 146097).toNat
  let yoe : ℕ := (doe - doe / 1460 + doe / 36524 - doe / 146096) / 365
  let y : ℤ := (yoe : ℤ) + era * 400
  let doy : ℕ := doe - (365 * yoe + yoe / 4 - yoe / 100)
  let mp : ℕ := (5 * doy + 2) / 153
  let d : ℕ := doy - (153 * mp + 2) / 5 + 1
  let m : ℕ := if mp < 10 then mp + 3 else mp - 9
  (if m ≤ 2 then y + 1 else y, m, d)

/-- The due-date computation of `generatePaymentSchedule`:
```js
const targetYear = dueDate.getFullYear() + Math.floor((dueDate.getMonth() + monthsToAdd) / 12);
const targetMonth = (dueDate.getMonth() + monthsToAdd) % 12;
dueDate.setFullYear(targetYear, targetMonth, 1);
const daysInMonth = new Date(targetYear, targetMonth + 1, 0).getDate();
dueDate.setDate(Math.min(originalDay, daysInMonth));
```
(`getMonth()` is 0-based). -/
def addMonthsClampJS (start : ℤ) (monthsToAdd : ℕ) : ℤ :=
  let c := civilFromDays start
  let y := c.1
  let m0 := c.2.1 - 1
  let d := c.2.2
  let targetYear : ℤ := y + ((m0 + monthsToAdd) / 12 : ℕ)
  let targetMonth0 : ℕ := (m0 + monthsToAdd) % 12
  daysFromCivil targetYear (targetMonth0 + 1) (min d (daysInMonth targetYear (targetMonth0 + 1)))

/-! ## loanHelpers.js : generatePaymentSchedule -/

/-- The schedule loop body: iteration `k` (0-based) of
```js
for (let i = 0; i < term; i++) {
  const interestAmount = remainingPrincipal * monthlyRate;
  const principalAmount = monthlyPayment - interestAmount;
  remainingPrincipal -= principalAmount;
  ...
  schedule.push({ id: `payment-${loan.id}-${i + 1}`, dueDate, amount: monthlyPayment,
                  status: 'pending', paidDate: null, principalAmount, interestAmount, notes: '' });
}
```
`count` is the number of iterations still to run. -/
def schedGo (loanId : String) (monthlyPayment monthlyRate : ℚ) (start : ℤ) :
    ℕ → ℚ → ℕ → List Payment
  | _, _, 0 => []
  | k, remainingPrincipal, count + 1 =>
    let interestAmount := remainingPrincipal * monthlyRate
    let principalAmount := monthlyPayment - interestAmount
    { id := "payment-" ++ loanId ++ "-" ++ toString (k + 1)
    , dueDate := addMonthsClampJS start (k + 1)
    , amount := monthlyPayment
    , status := PayStatus.pending
    , paidDate := none
    , principalAmount := principalAmount
    , interestAmount := interestAmount
    , notes := "" } ::
      schedGo loanId monthlyPayment monthlyRate start (k + 1)
        (remainingPrincipal - principalAmount) count

/-- `generatePaymentSchedule(loan)` on the fields it reads.  The source stores
the float returned by `calculateMonthlyPayment`; under the preconditions of
every call site (positive term) that float is finite, which `JsNum.toQ`
extracts. -/
def generatePaymentSchedule (loanId : String) (amount interestRate : ℚ) (term : ℕ)
    (startDate : ℤ) : List Payment :=
  let monthlyPayment := (calculateMonthlyPayment amount interestRate term).toQ
  let monthlyRate := interestRate / 100 / 12
  schedGo loanId monthlyPayment monthlyRate startDate 0 amount term

/-- Sum of the `principalAmount` column of a schedule. -/
def sumPrincipal (s : List Payment) : ℚ := (s.map fun p => p.principalAmount).sum

/-- The running `remainingPrincipal` after `n` iterations of the schedule loop. -/
def remAfter (A i : ℚ) : ℚ → ℕ → ℚ
  | r, 0 => r
  | r, n + 1 => remAfter A i (r - (A - r * i)) n

theorem schedGo_length (loanId : String) (A i : ℚ) (st : ℤ) :
    ∀ (n k : ℕ) (r : ℚ), (schedGo loanId A i st k r n).length = n := by
  intro n
  induction n with
  | zero => intro k r; rfl
  | succ n ih => intro k r; simp [schedGo, ih]

theorem schedGo_amount (loanId : String) (A i : ℚ) (st : ℤ) :
    ∀ (n k : ℕ) (r : ℚ) (p : Payment), p ∈ schedGo loanId A i st k r n → p.amount = A := by
  intro n
  induction n with
  | zero => intro k r p hp; simp [schedGo] at hp
  | succ n ih =>
    intro k r p hp
    simp only [schedGo, List.mem_cons] at hp
    rcases hp with hp | hp
    · rw [hp]
    · exact ih (k + 1) _ p hp

theorem schedGo_sum (loanId : String) (A i : ℚ) (st : ℤ) :
    ∀ (n k : ℕ) (r : ℚ), sumPrincipal (schedGo loanId A i st k r n) = r - remAfter A i r n := by
  intro n
  induction n with
  | zero => intro k r; simp [schedGo, sumPrincipal, remAfter]
  | succ n ih =>
    intro k r
    simp only [schedGo, sumPrincipal, List.map_cons, List.sum_cons, remAfter]
    have h := ih (k + 1) (r - (A - r * i))
    simp only [sumPrincipal] at h
    rw [h]
    ring

theorem remAfter_zero_rate (A : ℚ) :
    ∀ (n : ℕ) (r : ℚ), remAfter A 0 r n = r - n * A := by
  intro n
  induction n with
  | zero => intro r; simp [remAfter]
  | succ n ih =>
    intro r
    simp only [remAfter, ih]
    push_cast
    ring

theorem remAfter_closed (A i : ℚ) (hi : i ≠ 0) :
    ∀ (n : ℕ) (r : ℚ), remAfter A i r n = r * (1 + i) ^ n - A * (((1 + i) ^ n - 1) / i) := by
  intro n
  induction n with
  | zero => intro r; simp [remAfter]
  | succ n ih =>
    intro r
    simp only [remAfter, ih]
    field_simp
    ring

theorem monthlyPayment_zero_rate (P : ℚ) (n : ℕ) (hn : n ≠ 0) :
    (calculateMonthlyPayment P 0 n).toQ = P / n := by
  simp [calculateMonthlyPayment, jsDivNat, hn, jsOrZero, JsNum.toQ]

theorem monthlyPayment_pos_rate (P r : ℚ) (n : ℕ) (hn : n ≠ 0) (hr : r ≠ 0) :
    (calculateMonthlyPayment P r n).toQ =
      P * (r / 100 / 12) * (1 + r / 100 / 12) ^ n / ((1 + r / 100 / 12) ^ n - 1) := by
  simp [calculateMonthlyPayment, hn, hr, JsNum.toQ]

/-- The schedule loop amortizes the principal exactly (in exact arithmetic). -/
theorem sumPrincipal_generate (loanId : String) (P r : ℚ) (n : ℕ) (st : ℤ)
    (hn : n ≠ 0) (hr : 0 ≤ r) :
    sumPrincipal (generatePaymentSchedule loanId P r n st) = P := by
  rcases eq_or_lt_of_le hr with h0 | hpos
  · -- zero interest rate: each payment repays P/n of principal
    subst h0
    simp only [generatePaymentSchedule]
    rw [monthlyPayment_zero_rate P n hn]
    have hz : (0 : ℚ) / 100 / 12 = 0 := by norm_num
    rw [hz, schedGo_sum, remAfter_zero_rate]
    have hnq : (n : ℚ) ≠ 0 := Nat.cast_ne_zero.mpr hn
    field_simp
  · -- positive rate: the annuity payment drives the remaining principal to 0
    have hrne : r ≠ 0 := ne_of_gt hpos
    simp only [generatePaymentSchedule]
    rw [monthlyPayment_pos_rate P r n hn hrne]
    set i : ℚ := r / 100 / 12 with hidef
    have hipos : 0 < i := by positivity
    have hine : i ≠ 0 := ne_of_gt hipos
    have hp1 : (1 : ℚ) < 1 + i := by linarith
    have hpow : (1 : ℚ) < (1 + i) ^ n := one_lt_pow₀ hp1 hn
    have hne : (1 + i) ^ n - 1 ≠ 0 := sub_ne_zero.mpr (ne_of_gt hpow)
    rw [schedGo_sum, remAfter_closed _ _ hine]
    field_simp
    ring

/-! ## Concrete loans/payments used by witnesses and counterexamples -/

/-- A loan whose maturity date lies 90 days in the past (relative to `now = 0`),
with no payments, no obligations and status on_track. -/
def loanMatured : Loan :=
  { id := "L6", borrower := "B", borrowerEmail := "", borrowerPhone := ""
  , borrowerContact := "", borrowerIdentifier := "", loanOfficer := ""
  , amount := 1000, interestRate := 5, term := 12, startDate := 0
  , endDate := some (-90), status := Status.on_track, riskScore := 0
  , paymentSchedule := [], obligations := [], notes := [], communications := []
  , tags := [], managedBy := "u" }

/-- An overdue payment (due 30 days before `now = 0`). -/
def ovPayment (k : ℕ) : Payment :=
  { id := "p" ++ toString k, dueDate := -30, amount := 100
  , status := PayStatus.overdue, paidDate := none
  , principalAmount := 90, interestAmount := 10, notes := "" }

/-- A loan with three overdue payments, all obligations complete and maturity
far in the future. -/
def loanDefaulted : Loan :=
  { loanMatured with
    id := "L1w"
    endDate := some 10000
    obligations := [{ id := "o1", title := "report", dueDate := -5, completed := true }]
    paymentSchedule := [ovPayment 1, ovPayment 2, ovPayment 3] }

/-- A loan with an empty payment schedule and an incomplete past-due obligation. -/
def loanEmptySched : Loan :=
  { loanMatured with
    id := "L10"
    endDate := none
    obligations := [{ id := "o1", title := "report", dueDate := -5, completed := false }] }

/-! ## Claims C1, C2, C5, C6, C8, C10 -/

/-- C1: `determineLoanStatus` is a strict-priority classifier with first match
winning: defaulted when at least 3 payments are overdue; otherwise paid_off
when every payment is paid; otherwise overdue when some payment is overdue;
otherwise at_risk when some pending payment is due within 7 days of now or
some incomplete obligation is due strictly before now; otherwise on_track.
In particular a loan with 3 overdue payments is defaulted regardless of
obligations and maturity. -/
theorem claim_c1 (now : ℤ) (loan : Loan) :
    (3 ≤ (loan.paymentSchedule.filter fun p => decide (p.status = PayStatus.overdue)).length →
      determineLoanStatus now loan = Status.defaulted) ∧
    ((loan.paymentSchedule.filter fun p => decide (p.status = PayStatus.overdue)).length < 3 →
      (∀ p ∈ loan.paymentSchedule, p.status = PayStatus.paid) →
      determineLoanStatus now loan = Status.paid_off) ∧
    ((loan.paymentSchedule.filter fun p => decide (p.status = PayStatus.overdue)).length < 3 →
      ¬(∀ p ∈ loan.paymentSchedule, p.status = PayStatus.paid) →
      (∃ p ∈ loan.paymentSchedule, p.status = PayStatus.overdue) →
      determineLoanStatus now loan = Status.overdue) ∧
    ((loan.paymentSchedule.filter fun p => decide (p.status = PayStatus.overdue)).length < 3 →
      ¬(∀ p ∈ loan.paymentSchedule, p.status = PayStatus.paid) →
      ¬(∃ p ∈ loan.paymentSchedule, p.status = PayStatus.overdue) →
      ((∃ p ∈ loan.paymentSchedule, p.status = PayStatus.pending ∧
          0 ≤ p.dueDate - now ∧ p.dueDate - now ≤ 7) ∨
        (∃ o ∈ loan.obligations, o.completed = false ∧ o.dueDate < now)) →
      determineLoanStatus now loan = Status.at_risk) ∧
    ((loan.paymentSchedule.filter fun p => decide (p.status = PayStatus.overdue)).length < 3 →
      ¬(∀ p ∈ loan.paymentSchedule, p.status = PayStatus.paid) →
      ¬(∃ p ∈ loan.paymentSchedule, p.status = PayStatus.overdue) →
      ¬((∃ p ∈ loan.paymentSchedule, p.status = PayStatus.pending ∧
          0 ≤ p.dueDate - now ∧ p.dueDate - now ≤ 7) ∨
        (∃ o ∈ loan.obligations, o.completed = false ∧ o.dueDate < now)) →
      determineLoanStatus now loan = Status.on_track) := by
  unfold determineLoanStatus
  simp only [isWithinDaysB, isDatePastB, daysUntilI]
  split_ifs with h1 h2 h3 h4
  · -- defaulted branch
    refine ⟨fun _ => rfl, ?_, ?_, ?_, ?_⟩ <;> intro hlt <;> omega
  · -- paid_off branch
    simp only [List.all_eq_true, decide_eq_true_eq] at h2
    refine ⟨fun h => absurd h (by omega), fun _ _ => rfl, ?_, ?_, ?_⟩ <;>
      intro _ hnp <;> exact absurd h2 hnp
  · -- overdue branch
    simp only [List.all_eq_true, decide_eq_true_eq] at h2
    simp only [List.any_eq_true, decide_eq_true_eq] at h3
    refine ⟨fun h => absurd h (by omega), fun _ hp => absurd hp h2, fun _ _ _ => rfl,
      ?_, ?_⟩ <;> intro _ _ hno <;> exact absurd h3 hno
  · -- at_risk branch
    simp only [List.all_eq_true, decide_eq_true_eq] at h2
    simp only [List.any_eq_true, decide_eq_true_eq] at h3
    refine ⟨fun h => absurd h (by omega), fun _ hp => absurd hp h2,
      fun _ _ ho => absurd ho h3, fun _ _ _ _ => rfl, fun _ _ _ hna => ?_⟩
    rcases h4 with h4 | h4
    · rw [List.length_pos] at h4
      rcases List.exists_mem_of_ne_nil _ h4 with ⟨p, hp⟩
      rw [List.mem_filter] at hp
      simp only [Bool.and_eq_true, decide_eq_true_eq] at hp
      exact absurd (Or.inl ⟨p, hp.1, hp.2.1, hp.2.2⟩) hna
    · rw [List.length_pos] at h4
      rcases List.exists_mem_of_ne_nil _ h4 with ⟨o, ho⟩
      rw [List.mem_filter] at ho
      simp only [Bool.and_eq_true, Bool.not_eq_true', decide_eq_true_eq] at ho
      exact absurd (Or.inr ⟨o, ho.1, ho.2.1, ho.2.2⟩) hna
  · -- on_track branch
    simp only [List.all_eq_true, decide_eq_true_eq] at h2
    simp only [List.any_eq_true, decide_eq_true_eq] at h3
    push_neg at h4
    refine ⟨fun h => absurd h (by omega), fun _ hp => absurd hp h2,
      fun _ _ ho => absurd ho h3, fun _ _ _ ha => ?_, fun _ _ _ _ => rfl⟩
    rcases ha with ⟨p, hp, hpend, hlo, hhi⟩ | ⟨o, ho, hinc, hdue⟩
    · have h40 := h4.1
      rw [Nat.le_zero, List.length_eq_zero, List.filter_eq_nil_iff] at h40
      exact absurd (by simp [hpend, hlo, hhi]) (h40 p hp)
    · have h40 := h4.2
      rw [Nat.le_zero, List.length_eq_zero, List.filter_eq_nil_iff] at h40
      exact absurd (by simp [hinc, hdue]) (h40 o ho)

/-- C1 witness: a concrete loan with 3 overdue payments, complete obligations
and far-away maturity is classified defaulted. -/
theorem claim_c1_witness :
    3 ≤ (loanDefaulted.paymentSchedule.filter fun p =>
        decide (p.status = PayStatus.overdue)).length ∧
    determineLoanStatus 0 loanDefaulted = Status.defaulted :=
  ⟨by decide, (claim_c1 0 loanDefaulted).1 (by decide)⟩

/-- C2: for positive principal, rate ≥ 0 and positive term, the generated
schedule has exactly `term` payments, each with the constant annuity amount,
and the principal portions sum to the principal within 0.01. -/
theorem claim_c2 (loanId : String) (P r : ℚ) (n : ℕ) (st : ℤ)
    (hP : 0 < P) (hr : 0 ≤ r) (hn : 0 < n) :
    (generatePaymentSchedule loanId P r n st).length = n ∧
    (∀ p ∈ generatePaymentSchedule loanId P r n st,
      p.amount = (calculateMonthlyPayment P r n).toQ) ∧
    |sumPrincipal (generatePaymentSchedule loanId P r n st) - P| < 1 / 100 := by
  refine ⟨?_, ?_, ?_⟩
  · simp [generatePaymentSchedule, schedGo_length]
  · intro p hp
    simp only [generatePaymentSchedule] at hp
    exact schedGo_amount _ _ _ _ n 0 P p hp
  · rw [sumPrincipal_generate loanId P r n st (Nat.pos_iff_ne_zero.mp hn) hr]
    norm_num

/-- C2 witness: the P=120000, r=6, n=36 instance. -/
theorem claim_c2_witness :
    (0 : ℚ) < 120000 ∧ (0 : ℚ) ≤ 6 ∧ 0 < 36 ∧
    (generatePaymentSchedule "loan-1" 120000 6 36 0).length = 36 :=
  ⟨by norm_num, by norm_num, by norm_num,
    (claim_c2 "loan-1" 120000 6 36 0 (by norm_num) (by norm_num) (by norm_num)).1⟩

/-- C5: the risk score is always clamped to [0, 100]. -/
theorem claim_c5 (now : ℤ) (loan : Loan) :
    0 ≤ calculateRiskScore now loan ∧ calculateRiskScore now loan ≤ 100 := by
  unfold calculateRiskScore
  exact ⟨le_min (by norm_num) (le_max_left 0 _), min_le_left _ _⟩

/-- C6: the claim says the maturity term never exceeds 20 because the fraction
is clamped to [0,1]; the code does not clamp, and a loan matured 90 days ago
gets a maturity term of 40, pushing this loan's score to 90 (the claimed bound
would allow at most 70 here). -/
theorem claim_c6_code_eval :
    maturityTerm 0 (some (-90)) = 40 ∧ 20 < maturityTerm 0 (some (-90)) ∧
    calculateRiskScore 0 loanMatured = 90 := by
  refine ⟨?_, ?_, ?_⟩ <;>
    norm_num [maturityTerm, daysUntilI, calculateRiskScore, loanMatured,
      paymentHistoryTerm, obligationTerm, statusRisk]

/-- C8: the claim says the function returns 0 for every principal when the
term is 0; in the code `principal / 0` is +Infinity, which is truthy, so the
`|| 0` guard does not fire and +Infinity is returned. -/
theorem claim_c8_code_eval :
    calculateMonthlyPayment 1000 0 0 = JsNum.posInf ∧
    calculateMonthlyPayment 1000 0 0 ≠ JsNum.num 0 := by
  refine ⟨?_, ?_⟩ <;> simp [calculateMonthlyPayment, jsDivNat, jsOrZero]

/-- C10: a loan with an empty payment schedule is classified paid_off (the
all-paid check is vacuously true), and enrichment applies the paid_off −20
status adjustment (the payment-history term being 0), regardless of the
obligations. -/
theorem claim_c10 (now : ℤ) (loan : Loan) (h : loan.paymentSchedule = []) :
    determineLoanStatus now loan = Status.paid_off ∧
    (enrichLoan now loan).status = Status.paid_off ∧
    (enrichLoan now loan).riskScore =
      min 100 (max 0 (50 + obligationTerm now loan.obligations +
        maturityTerm now loan.endDate - 20)) := by
  have h1 : determineLoanStatus now loan = Status.paid_off := by
    simp [determineLoanStatus, h]
  refine ⟨h1, by simp [enrichLoan, h1], ?_⟩
  simp only [enrichLoan, h1, calculateRiskScore, h, paymentHistoryTerm, statusRisk,
    List.length_nil]
  norm_num
  ring_nf

/-- C10 witness: concrete empty-schedule loan with an incomplete past-due
obligation. -/
theorem claim_c10_witness :
    determineLoanStatus 0 loanEmptySched = Status.paid_off ∧
    (enrichLoan 0 loanEmptySched).status = Status.paid_off :=
  ⟨(claim_c10 0 loanEmptySched rfl).1, (claim_c10 0 loanEmptySched rfl).2.1⟩

/-! ## useLoanStore.js : generateAlerts / markAlertRead

`generateAlerts` scans the managed loans (supplied here as a list) and ends
with
```js
set((state) => {
  const existingAlertsMap = new Map(state.alerts.map(a => [a.id, a]));
  const updatedAlerts = alerts.map(alert => {
    const existing = existingAlertsMap.get(alert.id);
    return existing ? { ...alert, read: existing.read } : alert;
  });
  return { alerts: updatedAlerts };
});
```
A JS `Map` built from a list of pairs keeps the last entry per key, hence the
reverse-find lookup. Locale/ISO formatting of amounts and
dates in messages is abstracted by `toString`. -/

inductive AlertType where
  | payment_due
  | payment_overdue
  | obligation_due
  | risk_warning
deriving DecidableEq

inductive Severity where
  | low
  | medium
  | high
  | critical
deriving DecidableEq

structure Alert where
  id : String
  loanId : String
  type : AlertType
  severity : Severity
  title : String
  message : String
  date : ℤ
  read : Bool
  actionUrl : String
deriving DecidableEq

/-- Abstraction of `toLocaleString('en-US', { style: 'currency', … })`. -/
def fmtUSD (q : ℚ) : String := toString q

/-- Abstraction of the date string interpolated into alert messages. -/
def fmtDate (d : ℤ) : String := toString d

/-- Alerts produced for one pending payment. -/
def paymentAlert (now : ℤ) (loan : Loan) (payment : Payment) : List Alert :=
  if payment.status = PayStatus.pending then
    let daysUntilA := payment.dueDate - now
    if daysUntilA < 0 then
      [{ id := "alert-" ++ loan.id ++ "-" ++ payment.id ++ "-overdue"
       , loanId := loan.id, type := AlertType.payment_overdue, severity := Severity.high
       , title := "Overdue Payment: " ++ loan.borrower
       , message := "Payment of " ++ fmtUSD payment.amount ++ " was due on " ++
          fmtDate payment.dueDate
       , date := now, read := false, actionUrl := "/loans/" ++ loan.id }]
    else if daysUntilA ≤ 7 then
      [{ id := "alert-" ++ loan.id ++ "-" ++ payment.id ++ "-due"
       , loanId := loan.id, type := AlertType.payment_due
       , severity := if daysUntilA ≤ 3 then Severity.medium else Severity.low
       , title := "Payment Due Soon: " ++ loan.borrower
       , message := "Payment of " ++ fmtUSD payment.amount ++ " due in " ++
          fmtDate daysUntilA ++ " day(s)"
       , date := now, read := false, actionUrl := "/loans/" ++ loan.id }]
    else []
  else []

/-- Alerts produced for one incomplete obligation. -/
def obligationAlert (now : ℤ) (loan : Loan) (obligation : Obligation) : List Alert :=
  if obligation.completed = false then
    let daysUntilA := obligation.dueDate - now
    if daysUntilA < 0 then
      [{ id := "alert-" ++ loan.id ++ "-" ++ obligation.id ++ "-overdue"
       , loanId := loan.id, type := AlertType.obligation_due, severity := Severity.high
       , title := "Overdue Obligation: " ++ loan.borrower
       , message := obligation.title ++ " was due on " ++ fmtDate obligation.dueDate
       , date := now, read := false, actionUrl := "/loans/" ++ loan.id }]
    else if daysUntilA ≤ 14 then
      [{ id := "alert-" ++ loan.id ++ "-" ++ obligation.id ++ "-due"
       , loanId := loan.id, type := AlertType.obligation_due
       , severity := if daysUntilA ≤ 7 then Severity.medium else Severity.low
       , title := "Obligation Due Soon: " ++ loan.borrower
       , message := obligation.title ++ " due in " ++ fmtDate daysUntilA ++ " day(s)"
       , date := now, read := false, actionUrl := "/loans/" ++ loan.id }]
    else []
  else []

/-- Risk-warning alert for one loan. -/
def riskAlert (now : ℤ) (loan : Loan) : List Alert :=
  if 70 < loan.riskScore then
    [{ id := "alert-" ++ loan.id ++ "-risk"
     , loanId := loan.id, type := AlertType.risk_warning
     , severity := if 85 < loan.riskScore then Severity.critical else Severity.high
     , title := "High Risk Loan: " ++ loan.borrower
     , message := "Loan has a risk score of " ++ fmtUSD loan.riskScore ++
        ". Review recommended."
     , date := now, read := false, actionUrl := "/loans/" ++ loan.id }]
  else []

/-- The pure scan of `generateAlerts`. -/
def generateAlertsList (now : ℤ) (loans : List Loan) : List Alert :=
  loans.flatMap fun loan =>
    loan.paymentSchedule.flatMap (paymentAlert now loan) ++
    loan.obligations.flatMap (obligationAlert now loan) ++
    riskAlert now loan

/-- `Map.get` on the map built from `stateAlerts` (last entry per key wins). -/
def lookupById (l : List Alert) (i : String) : Option Alert :=
  l.reverse.find? fun a => a.id == i

/-- The final `set` of `generateAlerts`: replace the stored alert set with the
fresh alerts, copying `read` forward per identifier. -/
def mergeAlerts (stateAlerts fresh : List Alert) : List Alert :=
  fresh.map fun alert =>
    match lookupById stateAlerts alert.id with
    | some existing => { alert with read := existing.read }
    | none => alert

/-- `markAlertRead(alertId)`. -/
def markAlertRead (alertId : String) (alerts : List Alert) : List Alert :=
  alerts.map fun a => if a.id == alertId then { a with read := true } else a

/-- Marking a set of alert ids read, one `markAlertRead` call at a time. -/
def markAlertsRead (ids : List String) (alerts : List Alert) : List Alert :=
  ids.foldl (fun acc i => markAlertRead i acc) alerts

/-- An alert with its `read` flag blanked (for comparing all other fields). -/
def eraseRead (a : Alert) : Alert := { a with read := false }

theorem mergeAlerts_map_id (p f : List Alert) :
    (mergeAlerts p f).map (fun a => a.id) = f.map (fun a => a.id) := by
  unfold mergeAlerts
  rw [List.map_map]
  apply List.map_congr_left
  intro a _
  simp only [Function.comp_apply]
  cases h : lookupById p a.id <;> simp [h]

theorem markAlertRead_map_id (i : String) (l : List Alert) :
    (markAlertRead i l).map (fun a => a.id) = l.map (fun a => a.id) := by
  unfold markAlertRead
  rw [List.map_map]
  apply List.map_congr_left
  intro a _
  simp only [Function.comp_apply]
  split <;> rfl

theorem markAlertsRead_map_id (ids : List String) :
    ∀ l : List Alert, (markAlertsRead ids l).map (fun a => a.id) = l.map (fun a => a.id) := by
  induction ids with
  | nil => intro l; rfl
  | cons i rest ih =>
    intro l
    have : markAlertsRead (i :: rest) l = markAlertsRead rest (markAlertRead i l) := rfl
    rw [this, ih, markAlertRead_map_id]

theorem markAlertRead_sets (i : String) (l : List Alert) :
    ∀ a ∈ markAlertRead i l, a.id = i → a.read = true := by
  intro a ha hid
  simp only [markAlertRead, List.mem_map] at ha
  obtain ⟨b, hb, rfl⟩ := ha
  by_cases hbi : b.id == i
  · simp [hbi]
  · simp only [hbi, Bool.false_eq_true, if_false] at hid ⊢
    exact absurd hid (by simpa using hbi)

theorem markAlertRead_pres (j i : String) (l : List Alert)
    (h : ∀ b ∈ l, b.id = i → b.read = true) :
    ∀ b ∈ markAlertRead j l, b.id = i → b.read = true := by
  intro b hb hid
  simp only [markAlertRead, List.mem_map] at hb
  obtain ⟨c, hc, rfl⟩ := hb
  by_cases hcj : c.id == j
  · simp [hcj]
  · simp only [hcj, Bool.false_eq_true, if_false] at hid ⊢
    exact h c hc hid

theorem markAlertsRead_pres (i : String) (ids : List String) :
    ∀ l : List Alert, (∀ b ∈ l, b.id = i → b.read = true) →
      ∀ b ∈ markAlertsRead ids l, b.id = i → b.read = true := by
  induction ids with
  | nil => intro l h; exact h
  | cons j rest ih =>
    intro l h
    exact ih (markAlertRead j l) (markAlertRead_pres j i l h)

theorem markAlertsRead_read (ids : List String) :
    ∀ (l : List Alert) (a : Alert), a ∈ markAlertsRead ids l → a.id ∈ ids → a.read = true := by
  induction ids with
  | nil => intro l a _ h; simp at h
  | cons i rest ih =>
    intro l a ha hid
    have hstep : markAlertsRead (i :: rest) l = markAlertsRead rest (markAlertRead i l) := rfl
    rw [hstep] at ha
    by_cases hmem : a.id ∈ rest
    · exact ih _ a ha hmem
    · have heq : a.id = i := by
        rcases List.mem_cons.mp hid with h | h
        · exact h
        · exact absurd h hmem
      exact markAlertsRead_pres i rest (markAlertRead i l) (markAlertRead_sets i l) a ha heq

theorem lookupById_of_mem_id (l : List Alert) (x : String)
    (hx : x ∈ l.map (fun a => a.id)) :
    ∃ e, lookupById l x = some e ∧ e ∈ l ∧ e.id = x := by
  unfold lookupById
  cases h : l.reverse.find? (fun a => a.id == x) with
  | none =>
    rw [List.find?_eq_none] at h
    obtain ⟨b, hb, hbid⟩ := List.mem_map.mp hx
    exact absurd (by simp [hbid]) (h b (List.mem_reverse.mpr hb))
  | some e =>
    have he := List.find?_some h
    have hm := List.mem_of_find?_eq_some h
    exact ⟨e, rfl, List.mem_reverse.mp hm, by simpa using he⟩

theorem mem_zip_map_self {α : Type} (f : α → α) (l : List α) :
    ∀ p ∈ (l.map f).zip l, ∃ x, x ∈ l ∧ p = (f x, x) := by
  induction l with
  | nil => intro p hp; simp at hp
  | cons a t ih =>
    intro p hp
    simp only [List.map_cons, List.zip_cons_cons, List.mem_cons] at hp
    rcases hp with rfl | hp
    · exact ⟨a, List.mem_cons_self a t, rfl⟩
    · obtain ⟨x, hx, hpx⟩ := ih p hp
      exact ⟨x, List.mem_cons_of_mem a hx, hpx⟩

/-- C3: regenerating alerts with unchanged loan data (and clock) produces the
same identifiers as the previous run; `read` flags set in between are carried
into the second run's stored set; and apart from `read` every field of the
stored alerts equals the freshly generated alert with the same position
(everything is recomputed from the current facts). -/
theorem claim_c3 (now : ℤ) (loans : List Loan) (prior : List Alert) (readIds : List String) :
    (mergeAlerts (markAlertsRead readIds (mergeAlerts prior (generateAlertsList now loans)))
        (generateAlertsList now loans)).map (fun a => a.id) =
      (mergeAlerts prior (generateAlertsList now loans)).map (fun a => a.id) ∧
    (∀ pr ∈ (mergeAlerts (markAlertsRead readIds
          (mergeAlerts prior (generateAlertsList now loans)))
        (generateAlertsList now loans)).zip (generateAlertsList now loans),
      eraseRead pr.1 = eraseRead pr.2) ∧
    (∀ a ∈ mergeAlerts (markAlertsRead readIds (mergeAlerts prior (generateAlertsList now loans)))
        (generateAlertsList now loans), a.id ∈ readIds → a.read = true) := by
  refine ⟨?_, ?_, ?_⟩
  · rw [mergeAlerts_map_id, mergeAlerts_map_id]
  · intro pr hpr
    obtain ⟨x, hx, hpx⟩ := mem_zip_map_self _ _ pr hpr
    rw [hpx]
    cases h : lookupById (markAlertsRead readIds
        (mergeAlerts prior (generateAlertsList now loans))) x.id <;>
      simp [eraseRead, h]
  · intro a ha hid
    obtain ⟨x, hx, rfl⟩ := List.mem_map.mp ha
    cases h : lookupById (markAlertsRead readIds
        (mergeAlerts prior (generateAlertsList now loans))) x.id with
    | some e =>
      have he := List.find?_some h
      have hm := List.mem_reverse.mp (List.mem_of_find?_eq_some h)
      have heid : e.id = x.id := by simpa using he
      have hread : e.read = true :=
        markAlertsRead_read readIds _ e hm (by rw [heid]; simpa [h] using hid)
      simp [h, hread]
    | none =>
      have hxid : x.id ∈ (markAlertsRead readIds
          (mergeAlerts prior (generateAlertsList now loans))).map (fun a => a.id) := by
        rw [markAlertsRead_map_id, mergeAlerts_map_id]
        exact List.mem_map.mpr ⟨x, hx, rfl⟩
      obtain ⟨e, he, _, _⟩ := lookupById_of_mem_id _ _ hxid
      rw [h] at he
      cases he

/-- A loan with a single pending payment already overdue at `now = 0`. -/
def loanPendingLate : Loan :=
  { loanMatured with
    id := "L"
    endDate := some 1000
    paymentSchedule := [{ id := "p", dueDate := -1, amount := 5
                        , status := PayStatus.pending, paidDate := none
                        , principalAmount := 4, interestAmount := 1, notes := "" }] }

/-- The stored alert for that payment after it was marked read between runs. -/
def alertReadW3 : Alert :=
  { id := "alert-L-p-overdue", loanId := "L", type := AlertType.payment_overdue
  , severity := Severity.high, title := "Overdue Payment: B"
  , message := "Payment of 5 was due on -1", date := 0, read := true
  , actionUrl := "/loans/L" }

/-- C3 witness: one concrete loan, regenerated twice with the single alert
marked read in between; ids coincide and the read flag survives. -/
theorem claim_c3_witness :
    (mergeAlerts (markAlertsRead ["alert-L-p-overdue"]
          (mergeAlerts [] (generateAlertsList 0 [loanPendingLate])))
        (generateAlertsList 0 [loanPendingLate])).map (fun a => a.id) =
      (mergeAlerts [] (generateAlertsList 0 [loanPendingLate])).map (fun a => a.id) ∧
    alertReadW3.read = true :=
  ⟨(claim_c3 0 [loanPendingLate] [] ["alert-L-p-overdue"]).1,
   (claim_c3 0 [loanPendingLate] [] ["alert-L-p-overdue"]).2.2 alertReadW3
     (by decide) (by decide)⟩

/-! ## dataManagement.js : matchExistingLoan / updateLoanWithImportData

JS `x || y` on strings / numbers is modelled by `orStr` / `orQ` / `orNat`
(`''`, `0` and `NaN`-free inputs are the relevant falsy values); fields that
are `undefined`-or-value in the import candidate are `Option`s. -/

structure ImportData where
  borrower : String
  amount : ℚ
  interestRate : ℚ
  term : ℕ
  startDate : Option ℤ
  endDate : Option ℤ
  borrowerEmail : String
  borrowerPhone : String
  borrowerContact : String
  loanOfficer : String
  status : Option Status
  tags : Option (List String)
deriving DecidableEq

/-- JS `a || b` for strings (empty string is falsy). -/
def orStr (a b : String) : String := if a = "" then b else a

/-- JS `a || b` for numbers (0 is falsy). -/
def orQ (a b : ℚ) : ℚ := if a = 0 then b else a

/-- JS `a || b` for integer counts (0 is falsy). -/
def orNat (a b : ℕ) : ℕ := if a = 0 then b else a

/-- `matchExistingLoan(importLoan, existingLoans)`: match by normalized email
(or identity key) first, then by normalized name (or identity key). -/
def matchExistingLoan (importLoan : ImportData) (existingLoans : List Loan) : Option Loan :=
  let importEmail := lowerTrim importLoan.borrowerEmail
  let importName := lowerTrim importLoan.borrower
  if importEmail = "" ∧ importName = "" then none
  else
    let emailMatch :=
      if importEmail ≠ "" then
        existingLoans.find? fun loan =>
          lowerTrim loan.borrowerEmail == importEmail ||
          lowerTrim loan.borrowerIdentifier == importEmail
      else none
    match emailMatch with
    | some m => some m
    | none =>
      if importName ≠ "" then
        existingLoans.find? fun loan =>
          lowerTrim loan.borrower == importName ||
          lowerTrim loan.borrowerIdentifier == importName
      else none

/-- `updateLoanWithImportData(existingLoan, importData)`: spread of
`existingLoan` with each listed field overridden, schedule preserved when
non-empty, then re-enriched. -/
def updateLoanWithImportData (now : ℤ) (existingLoan : Loan) (importData : ImportData) : Loan :=
  let updatedLoan : Loan :=
    { existingLoan with
      borrower := orStr importData.borrower existingLoan.borrower
      amount := orQ importData.amount existingLoan.amount
      interestRate := orQ importData.interestRate existingLoan.interestRate
      term := orNat importData.term existingLoan.term
      startDate := importData.startDate.getD existingLoan.startDate
      endDate := match importData.endDate with
        | some d => some d
        | none => existingLoan.endDate
      borrowerEmail := orStr importData.borrowerEmail existingLoan.borrowerEmail
      borrowerPhone := orStr importData.borrowerPhone existingLoan.borrowerPhone
      borrowerContact := orStr importData.borrowerContact existingLoan.borrowerContact
      loanOfficer := orStr importData.loanOfficer existingLoan.loanOfficer
      borrowerIdentifier := orStr (lowerTrim importData.borrowerEmail)
        (orStr (lowerTrim importData.borrower) existingLoan.borrowerIdentifier)
      paymentSchedule :=
        if 0 < existingLoan.paymentSchedule.length then existingLoan.paymentSchedule
        else generatePaymentSchedule existingLoan.id
          (orQ importData.amount existingLoan.amount)
          (orQ importData.interestRate existingLoan.interestRate)
          (orNat importData.term existingLoan.term)
          (importData.startDate.getD existingLoan.startDate)
      obligations := existingLoan.obligations
      notes := existingLoan.notes
      communications := existingLoan.communications
      status := importData.status.getD existingLoan.status
      tags := importData.tags.getD existingLoan.tags }
  enrichLoan now updatedLoan

/-- C4: the merged record keeps the existing identifier and owner; when the
existing schedule is non-empty the schedule, obligations, notes and
communications are preserved as-is (a fresh schedule is generated only for an
empty one); every non-empty candidate field overwrites the corresponding
existing field; and an email match takes priority in `matchExistingLoan`. -/
theorem claim_c4 (now : ℤ) (existingLoan : Loan) (importData : ImportData) :
    (updateLoanWithImportData now existingLoan importData).id = existingLoan.id ∧
    (updateLoanWithImportData now existingLoan importData).managedBy = existingLoan.managedBy ∧
    (existingLoan.paymentSchedule ≠ [] →
      (updateLoanWithImportData now existingLoan importData).paymentSchedule =
        existingLoan.paymentSchedule) ∧
    (existingLoan.paymentSchedule = [] →
      (updateLoanWithImportData now existingLoan importData).paymentSchedule =
        generatePaymentSchedule existingLoan.id
          (orQ importData.amount existingLoan.amount)
          (orQ importData.interestRate existingLoan.interestRate)
          (orNat importData.term existingLoan.term)
          (importData.startDate.getD existingLoan.startDate)) ∧
    (updateLoanWithImportData now existingLoan importData).obligations =
      existingLoan.obligations ∧
    (updateLoanWithImportData now existingLoan importData).notes = existingLoan.notes ∧
    (updateLoanWithImportData now existingLoan importData).communications =
      existingLoan.communications ∧
    (importData.borrower ≠ "" →
      (updateLoanWithImportData now existingLoan importData).borrower = importData.borrower) ∧
    (importData.borrowerEmail ≠ "" →
      (updateLoanWithImportData now existingLoan importData).borrowerEmail =
        importData.borrowerEmail) ∧
    (importData.borrowerPhone ≠ "" →
      (updateLoanWithImportData now existingLoan importData).borrowerPhone =
        importData.borrowerPhone) ∧
    (importData.borrowerContact ≠ "" →
      (updateLoanWithImportData now existingLoan importData).borrowerContact =
        importData.borrowerContact) ∧
    (importData.loanOfficer ≠ "" →
      (updateLoanWithImportData now existingLoan importData).loanOfficer =
        importData.loanOfficer) ∧
    (importData.amount ≠ 0 →
      (updateLoanWithImportData now existingLoan importData).amount = importData.amount) ∧
    (importData.interestRate ≠ 0 →
      (updateLoanWithImportData now existingLoan importData).interestRate =
        importData.interestRate) ∧
    (importData.term ≠ 0 →
      (updateLoanWithImportData now existingLoan importData).term = importData.term) ∧
    (∀ d, importData.startDate = some d →
      (updateLoanWithImportData now existingLoan importData).startDate = d) ∧
    (∀ d, importData.endDate = some d →
      (updateLoanWithImportData now existingLoan importData).endDate = some d) ∧
    (∀ t, importData.tags = some t →
      (updateLoanWithImportData now existingLoan importData).tags = t) ∧
    (∀ (imp : ImportData) (loans : List Loan) (m : Loan),
      lowerTrim imp.borrowerEmail ≠ "" →
      (loans.find? fun loan =>
        lowerTrim loan.borrowerEmail == lowerTrim imp.borrowerEmail ||
        lowerTrim loan.borrowerIdentifier == lowerTrim imp.borrowerEmail) = some m →
      matchExistingLoan imp loans = some m) := by
  refine ⟨rfl, rfl, ?_, ?_, rfl, rfl, rfl, ?_, ?_, ?_, ?_, ?_, ?_, ?_, ?_, ?_, ?_, ?_, ?_⟩
  · intro h
    simp [updateLoanWithImportData, enrichLoan, List.length_pos.mpr h]
  · intro h
    simp [updateLoanWithImportData, enrichLoan, h]
  · intro h; simp [updateLoanWithImportData, enrichLoan, orStr, h]
  · intro h; simp [updateLoanWithImportData, enrichLoan, orStr, h]
  · intro h; simp [updateLoanWithImportData, enrichLoan, orStr, h]
  · intro h; simp [updateLoanWithImportData, enrichLoan, orStr, h]
  · intro h; simp [updateLoanWithImportData, enrichLoan, orStr, h]
  · intro h; simp [updateLoanWithImportData, enrichLoan, orQ, h]
  · intro h; simp [updateLoanWithImportData, enrichLoan, orQ, h]
  · intro h; simp [updateLoanWithImportData, enrichLoan, orNat, h]
  · intro d h; simp [updateLoanWithImportData, enrichLoan, h]
  · intro d h; simp [updateLoanWithImportData, enrichLoan, h]
  · intro t h; simp [updateLoanWithImportData, enrichLoan, h]
  · intro imp loans m hne hfind
    unfold matchExistingLoan
    rw [if_neg (by simp [hne])]
    simp only [if_pos hne, hfind]

/-- An existing loan carrying the email a@x.com and a non-empty schedule. -/
def loanEmailA : Loan :=
  { loanDefaulted with borrowerEmail := "a@x.com" }

/-- An import candidate with the same email and a new phone number only. -/
def importPhone : ImportData :=
  { borrower := "", amount := 0, interestRate := 0, term := 0, startDate := none
  , endDate := none, borrowerEmail := "a@x.com", borrowerPhone := "555"
  , borrowerContact := "", loanOfficer := "", status := none, tags := none }

/-- C4 witness: merging the candidate into the matched loan keeps id and
schedule and adopts the new phone number; the match itself is by email. -/
theorem claim_c4_witness :
    (updateLoanWithImportData 0 loanEmailA importPhone).borrowerPhone = "555" ∧
    (updateLoanWithImportData 0 loanEmailA importPhone).paymentSchedule =
      loanEmailA.paymentSchedule ∧
    (updateLoanWithImportData 0 loanEmailA importPhone).id = loanEmailA.id ∧
    matchExistingLoan importPhone [loanEmailA] = some loanEmailA := by
  obtain ⟨h1, _, h3, _, _, _, _, _, _, h10, _, _, _, _, _, _, _, _, hmatch⟩ :=
    claim_c4 0 loanEmailA importPhone
  exact ⟨h10 (by decide), h3 (by decide), h1, hmatch importPhone [loanEmailA] loanEmailA
    (by decide) (by decide)⟩

/-! ## fileImport.js : importLoansFromFile (append-only dedup)

```js
const existingIds = new Set(existingLoans.map(l => l.id));
const existingLoanKeys = new Set(existingLoans.map(l =>
  `${l.borrower?.toLowerCase().trim() || ''}_${l.amount}_${l.startDate}`));
const newLoans = enrichedLoans.filter(l => {
  const isDuplicateId = existingIds.has(l.id);
  const loanKey = `${...}`;
  const isDuplicateLoan = existingLoanKeys.has(loanKey);
  if (isDuplicateId || isDuplicateLoan) { ...; return false; }
  existingLoanKeys.add(loanKey);
  return true;
});
const updatedLoans = [...existingLoans, ...newLoans];
return { imported: newLoans.length, total: updatedLoans.length,
         skipped: enrichedLoans.length - newLoans.length };
``` -/

/-- The composite dedup key `borrower.toLowerCase().trim() + '_' + amount + '_' + startDate`. -/
def loanKey (l : Loan) : String :=
  lowerTrim l.borrower ++ "_" ++ toString l.amount ++ "_" ++ toString l.startDate

/-- The stateful filter over the batch: `keys` is the growing key set. -/
def dedupGo (existingIds : List String) : List String → List Loan → List Loan
  | _, [] => []
  | keys, l :: rest =>
    if l.id ∈ existingIds ∨ loanKey l ∈ keys then dedupGo existingIds keys rest
    else l :: dedupGo existingIds (loanKey l :: keys) rest

/-- `newLoans` of the snippet above. -/
def dedupNewLoans (existingLoans enrichedLoans : List Loan) : List Loan :=
  dedupGo (existingLoans.map fun l => l.id) (existingLoans.map loanKey) enrichedLoans

structure ImportResult where
  imported : ℕ
  total : ℕ
  skipped : ℕ
  loans : List Loan
deriving DecidableEq

/-- The append-only merge step of `importLoansFromFile` (candidates arrive
already parsed and enriched; `loans` is the `updatedLoans` written back). -/
def importLoansAppendOnly (existingLoans enrichedLoans : List Loan) : ImportResult :=
  let newLoans := dedupNewLoans existingLoans enrichedLoans
  let updatedLoans := existingLoans ++ newLoans
  { imported := newLoans.length
  , total := updatedLoans.length
  , skipped := enrichedLoans.length - newLoans.length
  , loans := updatedLoans }

theorem dedupGo_nil_of_keys (ids keys : List String) :
    ∀ C : List Loan, (∀ c ∈ C, loanKey c ∈ keys) → dedupGo ids keys C = [] := by
  intro C
  induction C with
  | nil => intro _; rfl
  | cons c rest ih =>
    intro h
    have hstep : dedupGo ids keys (c :: rest) =
        if c.id ∈ ids ∨ loanKey c ∈ keys then dedupGo ids keys rest
        else c :: dedupGo ids (loanKey c :: keys) rest := rfl
    rw [hstep, if_pos (Or.inr (h c (List.mem_cons_self c rest)))]
    exact ih fun x hx => h x (List.mem_cons_of_mem c hx)

theorem dedupGo_keys_cover (ids : List String) :
    ∀ (B : List Loan) (keys : List String) (b : Loan), b ∈ B → b.id ∉ ids →
      loanKey b ∈ keys ∨ loanKey b ∈ (dedupGo ids keys B).map loanKey := by
  intro B
  induction B with
  | nil => intro keys b hb; simp at hb
  | cons c rest ih =>
    intro keys b hb hid
    have hstep : dedupGo ids keys (c :: rest) =
        if c.id ∈ ids ∨ loanKey c ∈ keys then dedupGo ids keys rest
        else c :: dedupGo ids (loanKey c :: keys) rest := rfl
    rcases List.mem_cons.mp hb with rfl | hbr
    · by_cases hc : b.id ∈ ids ∨ loanKey b ∈ keys
      · rcases hc with hc | hc
        · exact absurd hc hid
        · exact Or.inl hc
      · right
        rw [hstep, if_neg hc]
        simp
    · by_cases hc : c.id ∈ ids ∨ loanKey c ∈ keys
      · rw [hstep, if_pos hc]
        exact ih keys b hbr hid
      · rw [hstep, if_neg hc]
        rcases ih (loanKey c :: keys) b hbr hid with h | h
        · rcases List.mem_cons.mp h with h | h
          · right; simp [h]
          · exact Or.inl h
        · right
          simp only [List.map_cons, List.mem_cons]
          exact Or.inr h

theorem dedupGo_kept_keys (ids : List String) :
    ∀ (B : List Loan) (keys : List String) (x : Loan), x ∈ dedupGo ids keys B →
      loanKey x ∉ keys := by
  intro B
  induction B with
  | nil => intro keys x hx; simp [dedupGo] at hx
  | cons c rest ih =>
    intro keys x hx
    have hstep : dedupGo ids keys (c :: rest) =
        if c.id ∈ ids ∨ loanKey c ∈ keys then dedupGo ids keys rest
        else c :: dedupGo ids (loanKey c :: keys) rest := rfl
    rw [hstep] at hx
    by_cases hc : c.id ∈ ids ∨ loanKey c ∈ keys
    · rw [if_pos hc] at hx
      exact ih keys x hx
    · rw [if_neg hc] at hx
      rcases List.mem_cons.mp hx with rfl | hxr
      · exact fun hk => hc (Or.inr hk)
      · intro hk
        exact ih (loanKey c :: keys) x hxr (List.mem_cons_of_mem _ hk)

theorem importAppend_keys (E B : List Loan)
    (hB : ∀ b ∈ B, b.id ∉ E.map fun l => l.id) :
    ∀ b ∈ B, loanKey b ∈ ((importLoansAppendOnly E B).loans).map loanKey := by
  intro b hb
  have hcover := dedupGo_keys_cover (E.map fun l => l.id) B (E.map loanKey) b hb (hB b hb)
  have hloans : (importLoansAppendOnly E B).loans = E ++ dedupNewLoans E B := rfl
  rw [hloans, List.map_append, List.mem_append]
  exact hcover

/-- C7: importing candidates whose composite keys all already occur in a
previous batch (the same CSV parsed again) adds zero net new loans: the ledger
is unchanged, nothing is imported, every candidate is counted as skipped; and
no loan kept from a batch ever carries a key already present in the ledger. -/
theorem claim_c7 (E B C : List Loan)
    (hB : ∀ b ∈ B, b.id ∉ E.map fun l => l.id)
    (hC : ∀ c ∈ C, loanKey c ∈ B.map loanKey) :
    (∀ x ∈ dedupNewLoans E B, loanKey x ∉ E.map loanKey) ∧
    (importLoansAppendOnly (importLoansAppendOnly E B).loans C).loans =
      (importLoansAppendOnly E B).loans ∧
    (importLoansAppendOnly (importLoansAppendOnly E B).loans C).imported = 0 ∧
    (importLoansAppendOnly (importLoansAppendOnly E B).loans C).skipped = C.length := by
  have hkeys : ∀ c ∈ C, loanKey c ∈ ((importLoansAppendOnly E B).loans).map loanKey := by
    intro c hc
    obtain ⟨b, hbB, hbk⟩ := List.mem_map.mp (hC c hc)
    rw [← hbk]
    exact importAppend_keys E B hB b hbB
  have hnil : dedupNewLoans (importLoansAppendOnly E B).loans C = [] :=
    dedupGo_nil_of_keys _ _ C hkeys
  refine ⟨?_, ?_, ?_, ?_⟩
  · intro x hx
    exact dedupGo_kept_keys _ B _ x hx
  · show (importLoansAppendOnly E B).loans ++ dedupNewLoans (importLoansAppendOnly E B).loans C =
      (importLoansAppendOnly E B).loans
    rw [hnil, List.append_nil]
  · show (dedupNewLoans (importLoansAppendOnly E B).loans C).length = 0
    rw [hnil]
    rfl
  · show C.length - (dedupNewLoans (importLoansAppendOnly E B).loans C).length = C.length
    rw [hnil]
    rfl

/-- An existing ledger loan. -/
def loanLedgerAnn : Loan := { loanMatured with id := "LA", borrower := "ann" }

/-- A first-import candidate. -/
def loanBatchBob : Loan := { loanMatured with id := "LB", borrower := "bob" }

/-- The same CSV row parsed a second time (fresh generated id, same data). -/
def loanBatchBob2 : Loan := { loanMatured with id := "LB2", borrower := "bob" }

/-- C7 witness: importing the re-parsed candidate after the first import
leaves the ledger unchanged, imports 0 and skips 1. -/
theorem claim_c7_witness :
    (importLoansAppendOnly (importLoansAppendOnly [loanLedgerAnn] [loanBatchBob]).loans
        [loanBatchBob2]).loans =
      (importLoansAppendOnly [loanLedgerAnn] [loanBatchBob]).loans ∧
    (importLoansAppendOnly (importLoansAppendOnly [loanLedgerAnn] [loanBatchBob]).loans
        [loanBatchBob2]).imported = 0 ∧
    (importLoansAppendOnly (importLoansAppendOnly [loanLedgerAnn] [loanBatchBob]).loans
        [loanBatchBob2]).skipped = 1 := by
  have h := claim_c7 [loanLedgerAnn] [loanBatchBob] [loanBatchBob2]
    (by decide)
    (by
      intro c hc
      rw [List.mem_singleton.mp hc]
      exact List.mem_singleton.mpr rfl)
  exact ⟨h.2.1, h.2.2.1, h.2.2.2⟩

/-! ## fileImport.js : parseCSV row processing (lines 193-339)

A raw cell is annotated with the results of the JS string inspections that
the parser's fallback scans perform (`parseFloat`, `parseInt`, `isNaN`,
regex prefix tests); `none` models NaN.  The per-row extraction results of
`getValue` over the normalized headers are given as the `…0` fields of
`CsvRow`; the fallback scans over all cells and the validation check are
embedded below. -/

structure Cell where
  raw : String
  isNumericStr : Bool
  asFloat : Option ℚ
  asInt : Option ℤ
  allDigits : Bool
  isoDateStart : Bool
  slashDateStart : Bool
  dashDateStart : Bool
deriving DecidableEq

structure CsvRow where
  borrower0 : String
  amount0 : Option ℚ
  rate0 : Option ℚ
  term0 : Option ℤ
  startDate0 : String
  cells : List Cell
deriving DecidableEq

/-- Borrower fallback: first non-empty, non-numeric cell that is not all
digits and not an ISO date (`!isNaN(val) === false` means `isNaN(val)`). -/
def fallbackBorrower (cells : List Cell) : String :=
  match cells.find? (fun c =>
      (!(c.raw == "")) && (!c.isNumericStr) && (!c.allDigits) && (!c.isoDateStart)) with
  | some c => c.raw
  | none => ""

/-- `if (!amount || isNaN(amount))`: scan for the first numeric cell `> 1000`. -/
def resolveAmount (primary : Option ℚ) (cells : List Cell) : Option ℚ :=
  if primary = none ∨ primary = some 0 then
    match cells.find? (fun c => match c.asFloat with
        | some v => decide (1000 < v)
        | none => false) with
    | some c => c.asFloat
    | none => primary
  else primary

/-- Rate fallback: first numeric cell strictly between 0 and 100. -/
def resolveRate (primary : Option ℚ) (cells : List Cell) : Option ℚ :=
  if primary = none ∨ primary = some 0 then
    match cells.find? (fun c => match c.asFloat with
        | some v => decide (0 < v) && decide (v < 100)
        | none => false) with
    | some c => c.asFloat
    | none => primary
  else primary

/-- Term fallback: first `parseInt` cell strictly between 0 and 600. -/
def resolveTerm (primary : Option ℤ) (cells : List Cell) : Option ℤ :=
  if primary = none ∨ primary = some 0 then
    match cells.find? (fun c => match c.asInt with
        | some v => decide (0 < v) && decide (v < 600)
        | none => false) with
    | some c => c.asInt
    | none => primary
  else primary

/-- Start-date fallback: `(val && iso) || slash || dash` (JS precedence). -/
def fallbackDate (cells : List Cell) : String :=
  match cells.find? (fun c =>
      ((!(c.raw == "")) && c.isoDateStart) || c.slashDateStart || c.dashDateStart) with
  | some c => c.raw
  | none => ""

/-- The borrower after extraction and fallback. -/
def rowBorrower (r : CsvRow) : String :=
  if r.borrower0 = "" then fallbackBorrower r.cells else r.borrower0

/-- The start date after extraction and fallback, before the default. -/
def rowStartDateRaw (r : CsvRow) : String :=
  if r.startDate0 = "" then fallbackDate r.cells else r.startDate0

/-- `if (!startDate) { startDate = new Date().toISOString().split('T')[0]; }` -/
def rowStartDate (today : String) (r : CsvRow) : String :=
  if rowStartDateRaw r = "" then today else rowStartDateRaw r

/-- The candidate record a row produces (the fields the validation concerns;
`formatDateString` is the identity on an already-resolved `YYYY-MM-DD`
string at this level of abstraction). -/
structure CsvLoan where
  borrower : String
  amount : ℚ
  interestRate : ℚ
  term : ℤ
  startDate : String
deriving DecidableEq

/-- One iteration of the parse loop: extraction with fallbacks, default start
date, then
```js
if (!borrower || !amount || isNaN(amount) || !interestRate || isNaN(interestRate)
    || !term || isNaN(term) || !startDate) {
  console.warn(`Row ${i + 1} is missing required fields, skipping`, {...});
  continue;
}
```
A rejected row yields `none`: the reason goes to `console.warn` only. -/
def processRow (today : String) (r : CsvRow) : Option CsvLoan :=
  if rowBorrower r = "" ∨
      resolveAmount r.amount0 r.cells = none ∨ resolveAmount r.amount0 r.cells = some 0 ∨
      resolveRate r.rate0 r.cells = none ∨ resolveRate r.rate0 r.cells = some 0 ∨
      resolveTerm r.term0 r.cells = none ∨ resolveTerm r.term0 r.cells = some 0 ∨
      rowStartDate today r = "" then
    none
  else
    some { borrower := rowBorrower r
         , amount := (resolveAmount r.amount0 r.cells).getD 0
         , interestRate := (resolveRate r.rate0 r.cells).getD 0
         , term := (resolveTerm r.term0 r.cells).getD 0
         , startDate := rowStartDate today r }

/-- The loop over the data rows: accepted candidates only, in order. -/
def parseCSVRows (today : String) (rows : List CsvRow) : List CsvLoan :=
  rows.filterMap (processRow today)

theorem rowStartDate_ne_empty (today : String) (htoday : today ≠ "") (r : CsvRow) :
    rowStartDate today r ≠ "" := by
  unfold rowStartDate
  split_ifs with h
  · exact htoday
  · exact h

theorem processRow_none_iff (today : String) (htoday : today ≠ "") (r : CsvRow) :
    processRow today r = none ↔
      (rowBorrower r = "" ∨
        resolveAmount r.amount0 r.cells = none ∨ resolveAmount r.amount0 r.cells = some 0 ∨
        resolveRate r.rate0 r.cells = none ∨ resolveRate r.rate0 r.cells = some 0 ∨
        resolveTerm r.term0 r.cells = none ∨ resolveTerm r.term0 r.cells = some 0) := by
  have hsd := rowStartDate_ne_empty today htoday r
  unfold processRow
  split_ifs with h
  · simp only [hsd, or_false] at h
    simp [h]
  · push_neg at h
    obtain ⟨h1, h2, h3, h4, h5, h6, h7, _⟩ := h
    simp [h1, h2, h3, h4, h5, h6, h7]

theorem parseCSVRows_eq_filter (today : String) (rows : List CsvRow) :
    parseCSVRows today rows =
      parseCSVRows today (rows.filter fun r => (processRow today r).isSome) := by
  unfold parseCSVRows
  induction rows with
  | nil => rfl
  | cons r rest ih =>
    cases hp : processRow today r with
    | none => simp [List.filterMap_cons, List.filter_cons, hp, ih]
    | some v => simp [List.filterMap_cons, List.filter_cons, hp, ih]

theorem parseCSVRows_length (today : String) (rows : List CsvRow) :
    (parseCSVRows today rows).length =
      (rows.filter fun r => (processRow today r).isSome).length := by
  unfold parseCSVRows
  induction rows with
  | nil => rfl
  | cons r rest ih =>
    cases hp : processRow today r with
    | none => simp [List.filterMap_cons, List.filter_cons, hp, ih]
    | some v => simp [List.filterMap_cons, List.filter_cons, hp, ih]

/-- A row whose amount cell parses to −5000 (all other fields valid). -/
def rowNegAmount : CsvRow :=
  { borrower0 := "Bob", amount0 := some (-5000), rate0 := some 5, term0 := some 12
  , startDate0 := "2024-01-01", cells := [] }

/-- A row whose start date cannot be resolved from any column. -/
def rowNoDate : CsvRow :=
  { borrower0 := "Bob", amount0 := some 2000, rate0 := some 5, term0 := some 12
  , startDate0 := "", cells := [] }

/-- A row with amount 0 (rejected). -/
def rowZeroAmount : CsvRow :=
  { borrower0 := "Bob", amount0 := some 0, rate0 := some 5, term0 := some 12
  , startDate0 := "2024-01-01", cells := [] }

/-- C9 counterexample: the claim says a row with a non-positive amount is
rejected and that a row whose start date cannot be resolved is rejected; the
parser accepts a row with amount −5000 (`!(-5000)` is false, `isNaN(-5000)`
is false), and accepts a row with no resolvable start date by substituting
today's date. -/
theorem claim_c9_counterexample :
    processRow "2024-06-01" rowNegAmount =
      some { borrower := "Bob", amount := -5000, interestRate := 5, term := 12
           , startDate := "2024-01-01" } ∧
    processRow "2024-06-01" rowNoDate =
      some { borrower := "Bob", amount := 2000, interestRate := 5, term := 12
           , startDate := "2024-06-01" } := by
  constructor <;> decide

/-- C9 amended: a row is rejected (skipped, non-fatally) iff its extracted
borrower is empty, or its extracted amount, interest rate or term is NaN or 0
after the fallback scans — negative values are accepted, and an unresolvable
start date never rejects a row because it is defaulted to today's date.
Rejected rows leave no trace in the returned value (their reason is only
logged to the console): the output equals the parse of the accepted rows
alone. -/
theorem claim_c9_amended (today : String) (rows : List CsvRow) (htoday : today ≠ "") :
    (∀ r ∈ rows, (processRow today r = none ↔
      (rowBorrower r = "" ∨
        resolveAmount r.amount0 r.cells = none ∨ resolveAmount r.amount0 r.cells = some 0 ∨
        resolveRate r.rate0 r.cells = none ∨ resolveRate r.rate0 r.cells = some 0 ∨
        resolveTerm r.term0 r.cells = none ∨ resolveTerm r.term0 r.cells = some 0))) ∧
    parseCSVRows today rows =
      parseCSVRows today (rows.filter fun r => (processRow today r).isSome) ∧
    (parseCSVRows today rows).length =
      (rows.filter fun r => (processRow today r).isSome).length :=
  ⟨fun r _ => processRow_none_iff today htoday r,
   parseCSVRows_eq_filter today rows,
   parseCSVRows_length today rows⟩

/-- C9 witness: with a non-empty `today`, a concrete row with amount 0 is
rejected, by the amended equivalence. -/
theorem claim_c9_witness :
    ("2024-06-01" : String) ≠ "" ∧ processRow "2024-06-01" rowZeroAmount = none :=
  ⟨by decide,
   ((claim_c9_amended "2024-06-01" [rowZeroAmount] (by decide)).1 rowZeroAmount
     (List.mem_singleton.mpr rfl)).mpr (by decide)⟩

end LoanLedger
